import Mathlib

/-!
Verification of the sandify vertex-pipeline selectors
(`src/features/machine/selectors.js`).

The development shallowly embeds the selector module: the per-layer raw /
transformed / computed vertex stages, the LRU vertex cache and its key
discipline, the selector registry, the perimeter stitcher, and the aggregate
views (offsets, slider gradient, preview vertices).  External collaborators
(shape generators, transform/polish functions, machine geometry,
`JSON.stringify`, the `color` library) are modelled as function parameters,
exactly as the spec declares them out of scope.  Machine integers do not
occur; coordinates are rationals.
-/

/-- A 2D point. Sequences of vertices encode drawing order. -/
structure Vertex where
  x : ℚ
  y : ℚ
deriving DecidableEq

/-- Machine settings, treated as an opaque value compared by content
(the pipeline only threads it through to external geometry helpers). -/
structure Machine where
  settings : Nat
deriving DecidableEq

/-- Layer ids (keys of the `layers` mapping and members of the visible order). -/
abbrev LayerId := Nat

/-- A layer, with the fields the selector module reads.  Field order:
usesMachine, shouldCache, dragging, effect, connectionMethod, offsetX,
offsetY, rotation, autosize, startingWidth, startingHeight, trackEnabled,
numLoops.  `effect` models the truthiness of `layer.effect` in
`makeGetLayerVertices`. -/
structure Layer where
  usesMachine : Bool
  shouldCache : Bool
  dragging : Bool
  effect : Bool
  connectionMethod : String
  offsetX : ℚ
  offsetY : ℚ
  rotation : ℚ
  autosize : Bool
  startingWidth : ℚ
  startingHeight : ℚ
  trackEnabled : Bool
  numLoops : Nat
deriving DecidableEq

/-- The argument of `getCacheKey` and of the shape generator:
`const state = { shape: layer, machine: machine }` where `machine` is the
value resolved by `makeGetLayerMachine` (null when `usesMachine` is false). -/
structure RawInput where
  shape : Layer
  machine : Option Machine
deriving DecidableEq

/-- External collaborators of the raw stage.  `stringify` models
`JSON.stringify`, which can throw (e.g. on circular structures); the source
has no try/catch, so a failure propagates.  `getVertices` models
`getShape(layer).getVertices(state)`, a pure function of its argument. -/
structure RawExternals where
  stringify : RawInput → Except String String
  getVertices : RawInput → List Vertex

/-- Length charged to one cache entry: `length: (n, key) => n.length`. -/
def entryLength (e : String × List Vertex) : Nat := e.2.length

/-- The module-level `cache = new LRUCache({length, max: 500000})`:
entries most-recent-first, bounded by the sum of stored list lengths. -/
structure LRUCache where
  entries : List (String × List Vertex)
  maxTotal : Nat
deriving DecidableEq

/-- Sum of the lengths of all stored vertex lists. -/
def LRUCache.totalLength (c : LRUCache) : Nat :=
  (c.entries.map entryLength).sum

/-- Drop least-recently-used entries (list tail) until the size budget fits. -/
def evictToFit (maxTotal : Nat) (es : List (String × List Vertex)) :
    List (String × List Vertex) :=
  if h : (es.map entryLength).sum ≤ maxTotal then es
  else evictToFit maxTotal es.dropLast
termination_by es.length
decreasing_by
  have hne : es ≠ [] := by
    intro he
    rw [he] at h
    simp at h
  have hpos : 0 < es.length := List.length_pos.mpr hne
  simp only [List.length_dropLast]
  omega

/-- Cache lookup; a hit refreshes recency (moves the entry to the front),
as `lru-cache` does on `get`. -/
def LRUCache.get (c : LRUCache) (k : String) :
    Option (List Vertex) × LRUCache :=
  match c.entries.find? (fun e => e.1 == k) with
  | none => (none, c)
  | some e =>
      (some e.2,
        LRUCache.mk (e :: c.entries.filter (fun e2 => e2.1 != k)) c.maxTotal)

/-- Cache insertion (`cache.set(key, vertices)`): store most-recent-first,
then evict least-recently-used entries until the budget fits. -/
def LRUCache.set (c : LRUCache) (k : String) (v : List Vertex) : LRUCache :=
  LRUCache.mk
    (evictToFit c.maxTotal ((k, v) :: c.entries.filter (fun e2 => e2.1 != k)))
    c.maxTotal

/-- Embeds `getCacheKey = (state) => JSON.stringify(state)`; the serializer is
external and may fail, and the source adds no handling of its own. -/
def getCacheKey (E : RawExternals) (state : RawInput) : Except String String :=
  E.stringify state

/-- Embeds the combiner of `makeGetLayerMachine`: the layer resolved by
`getLayersById`, then `layer.usesMachine ? machine : null`. -/
def makeGetLayerMachine (layer : Layer) (machine : Machine) : Option Machine :=
  if layer.usesMachine then some machine else none

/-- Result of one run of the raw stage: the produced value (or the propagated
serialization error), the cache state afterwards, and instrumentation flags
recording whether the vertex cache was consulted and whether the external
generator ran. -/
structure RawOut where
  result : Except String (List Vertex)
  cache : LRUCache
  cacheConsulted : Bool
  generatorCalled : Bool

/-- Embeds the combiner of `makeGetLayerVertices` (the raw stage), with the
module-level cache passed explicitly.  When `shouldCache`: build the key,
consult the cache, and on a miss run the generator and store its result.
Otherwise: an undragged layer with an active effect short-circuits to `[]`,
else the generator runs directly, bypassing the cache. -/
def makeGetLayerVerticesRun (E : RawExternals) (layer : Layer)
    (layerMachine : Option Machine) (cache : LRUCache) : RawOut :=
  let state : RawInput := RawInput.mk layer layerMachine
  if layer.shouldCache then
    match getCacheKey E state with
    | Except.error e => RawOut.mk (Except.error e) cache false false
    | Except.ok key =>
      match cache.get key with
      | (some vertices, c1) => RawOut.mk (Except.ok vertices) c1 true false
      | (none, c1) =>
        let vertices := E.getVertices state
        RawOut.mk (Except.ok vertices) (c1.set key vertices) true true
  else
    if !layer.dragging && layer.effect then
      RawOut.mk (Except.ok []) cache false false
    else
      RawOut.mk (Except.ok (E.getVertices state)) cache false true

/-- State of one reselect computation node: the last-seen input and the
last-produced output (`createSelector` memoizes on reference-equal inputs;
reference equality of the immutable snapshot values is modelled as value
equality). -/
structure MemoNode (α β : Type) where
  lastInput : Option α
  lastOutput : Option β

/-- Evaluate a memo node: if the input matches the last-seen input the stored
output is returned without rerunning `f`; otherwise `f` runs and the node is
updated.  The boolean reports whether `f` was (re)executed. -/
def MemoNode.evalNode {α β : Type} [DecidableEq α] (f : α → β)
    (n : MemoNode α β) (a : α) : β × MemoNode α β × Bool :=
  match n.lastInput, n.lastOutput with
  | some i, some o =>
    if i = a then (o, n, false)
    else
      let o2 := f a
      (o2, MemoNode.mk (some a) (some o2), true)
  | _, _ =>
    let o2 := f a
    (o2, MemoNode.mk (some a) (some o2), true)

/-- The input state snapshot consumed by the selectors: the layer mapping
(`getLayersById`, here an association list), the visible order
(`getVisibleLayerIds`), the machine settings and the preview slider value. -/
structure AppState where
  layers : List (LayerId × Layer)
  visibleLayerIds : List LayerId
  machine : Machine
  sliderValue : ℚ

/-- Modelled from the spec: `getLayersById` and `makeGetLayer` live in
`../layers/selectors`, which is not under src/; the input snapshot is a
`Mapping<LayerId, Layer>`, looked up by id. -/
def AppState.layerById (s : AppState) (id : LayerId) : Option Layer :=
  s.layers.lookup id

/-- Modelled from the spec: `getNumVisibleLayers` (not under src/) is the
length of the visible order. -/
def AppState.numVisibleLayers (s : AppState) : Nat :=
  s.visibleLayerIds.length

/-- Modelled from the spec: `makeGetLayerIndex` (not under src/) is the
layer's position in the visible order.  (For an id absent from the order the
JS selector yields -1; such states are outside every claim and here the index
degenerates to the list length.) -/
def AppState.layerIndex (s : AppState) (id : LayerId) : Nat :=
  s.visibleLayerIds.indexOf id

/-- Modelled from the spec: `makeGetNextLayerId` (not under src/) resolves
"next in visible order, skip nothing". -/
def specNextLayerId (s : AppState) (id : LayerId) : Option LayerId :=
  s.visibleLayerIds[s.layerIndex id + 1]?

/-- External collaborators of the transformed/computed/preview/gradient
stages, all declared out of scope by the spec and consumed as pure
functions.  `nearestPerimeterVertex` receives an `Option Vertex` because the
source passes `vertices[vertices.length - 1]`, which is `undefined` for an
empty list; the external's behaviour on it is its own business. -/
structure PipelineExternals where
  transformShapes : List Vertex → Layer → List Nat → List Vertex
  polishVertices : List Vertex → Machine → Bool → Bool → List Vertex
  nearestPerimeterVertex : Machine → Option Vertex → Vertex
  tracePerimeter : Machine → Vertex → Vertex → List Vertex
  rotatePoint : Vertex → ℚ → Vertex
  offsetPoint : Vertex → ℚ → ℚ → Vertex
  getSliderBounds : List Vertex → ℚ → Nat × Nat
  darkenHex : ℚ → String

/-- Embeds the combiner of `makeGetTransformedVertices`: a direct call to the
external `transformShapes(vertices, layer, effects)`. -/
def makeGetTransformedVerticesRun (E : PipelineExternals)
    (vertices : List Vertex) (layer : Layer) (effects : List Nat) :
    List Vertex :=
  E.transformShapes vertices layer effects

/-- Embeds the body of the `makeGetComputedVertices` combiner up to (but not
including) the `polishVertices` call, with the recursive selector call on the
next layer abstracted as `recurse` (`none` marks an aborted evaluation:
either the recursion failed or `layers[layerId]` is absent, which faults in
JS).  `transformed` supplies each layer's transformed-stage output and `next`
the `makeGetNextLayerId` resolution. -/
def computedPreBody (E : PipelineExternals) (s : AppState)
    (next : LayerId → Option LayerId) (transformed : LayerId → List Vertex)
    (recurse : LayerId → Option (List Vertex)) (layerId : LayerId) :
    Option (List Vertex) :=
  let vertices := transformed layerId
  if s.layerIndex layerId < s.numVisibleLayers - 1 then
    match next layerId with
    | none => some vertices
    | some nextLayerId =>
      match s.layerById nextLayerId with
      | none => some vertices
      | some nextLayer =>
        if nextLayer.dragging then some vertices
        else
          match recurse nextLayerId with
          | none => none
          | some nextVertices =>
            match nextVertices.head? with
            | none => some vertices
            | some endV =>
              match s.layerById layerId with
              | none => none
              | some layer =>
                if layer.connectionMethod = "along perimeter" then
                  let startPerimeter :=
                    E.nearestPerimeterVertex s.machine vertices.getLast?
                  let endPerimeter :=
                    E.nearestPerimeterVertex s.machine (some endV)
                  some (vertices ++
                    (startPerimeter ::
                      (E.tracePerimeter s.machine startPerimeter endPerimeter
                        ++ [endPerimeter, endV])))
                else
                  some (vertices ++ [endV])
  else some vertices

/-- Embeds `makeGetComputedVertices` (stitch, then
`polishVertices(vertices, machine, {start, end})`).  The recursive call on
the next visible layer is fuel-bounded; `none` at fuel 0 marks a recursion
deeper than the fuel allows. -/
def computedVerticesFuel (E : PipelineExternals) (s : AppState)
    (next : LayerId → Option LayerId) (transformed : LayerId → List Vertex) :
    Nat → LayerId → Option (List Vertex)
  | 0, _ => none
  | fuel + 1, layerId =>
    (computedPreBody E s next transformed
        (computedVerticesFuel E s next transformed fuel) layerId).map
      (fun vs => E.polishVertices vs s.machine
        (s.layerIndex layerId == 0)
        (s.layerIndex layerId == s.numVisibleLayers - 1))

/-- The computed-stage path of a layer before the polish step, the recursion
on the next layer being resolved with the given fuel. -/
def computedPre (E : PipelineExternals) (s : AppState)
    (next : LayerId → Option LayerId) (transformed : LayerId → List Vertex)
    (fuel : Nat) (layerId : LayerId) : Option (List Vertex) :=
  computedPreBody E s next transformed
    (computedVerticesFuel E s next transformed fuel) layerId

/-- One unfolding: a successful computed-stage run is the polish step applied
to the pre-polish path. -/
theorem computedVerticesFuel_succ (E : PipelineExternals) (s : AppState)
    (next : LayerId → Option LayerId) (transformed : LayerId → List Vertex)
    (fuel : Nat) (layerId : LayerId) :
    computedVerticesFuel E s next transformed (fuel + 1) layerId =
      (computedPre E s next transformed fuel layerId).map
        (fun vs => E.polishVertices vs s.machine
          (s.layerIndex layerId == 0)
          (s.layerIndex layerId == s.numVisibleLayers - 1)) := rfl

/-- Embeds the body of the `makeGetPreviewVertices` combiner: pick the
transformed vertices while dragging and the computed vertices otherwise, then
un-offset, rotate, and apply the Konva transformer delta to every vertex. -/
def makeGetPreviewVerticesBody (E : PipelineExternals) (s : AppState)
    (transformedVertices computedVertices : List Vertex)
    (layerId : LayerId) : Option (List Vertex) :=
  match s.layerById layerId with
  | none => none
  | some layer =>
    let vertices := if layer.dragging then transformedVertices
                    else computedVertices
    let konvaScale : ℚ := if layer.autosize then 5 else 1
    let konvaDeltaX := (konvaScale - 1) / 2 * layer.startingWidth
    let konvaDeltaY := (konvaScale - 1) / 2 * layer.startingHeight
    some (vertices.map (fun vertex =>
      E.offsetPoint
        (E.rotatePoint
          (E.offsetPoint vertex (-layer.offsetX) (-layer.offsetY))
          layer.rotation)
        konvaDeltaX (-konvaDeltaY)))

/-- The preview selector wired to the pipeline: its inputs are the
transformed-stage output and the (fuel-resolved) computed-stage output of the
same layer. -/
def previewVerticesFuel (E : PipelineExternals) (s : AppState)
    (next : LayerId → Option LayerId) (transformed : LayerId → List Vertex)
    (fuel : Nat) (layerId : LayerId) : Option (List Vertex) :=
  match computedVerticesFuel E s next transformed fuel layerId with
  | none => none
  | some cv =>
    makeGetPreviewVerticesBody E s (transformed layerId) cv layerId

/-- Embeds the `forEach` accumulation of `getVertexOffsets`: each visible
layer is assigned the running offset, which then advances by the layer's
computed vertex count plus one. -/
def offsetsGo (computed : LayerId → List Vertex) :
    Nat → List LayerId → List (LayerId × Nat)
  | _, [] => []
  | acc, id :: rest =>
    (id, acc) :: offsetsGo computed (acc + (computed id).length + 1) rest

/-- Embeds `getVertexOffsets`, with `computed` standing for the per-layer
computed-stage selector results consumed on line 200 of the source. -/
def getVertexOffsets (computed : LayerId → List Vertex)
    (visibleLayerIds : List LayerId) : List (LayerId × Nat) :=
  offsetsGo computed 0 visibleLayerIds

/-- The registry `cachedSelectors`, keyed in the source by `fn.name` and then
by `layerId`; flattened here to one association list keyed by the pair. -/
structure SelectorRegistry (Node : Type) where
  entries : List ((String × LayerId) × Node)

/-- Embeds `getCachedSelector`: return the stored node for `(kind, layerId)`
if present, else create one with `create` (standing for `fn(layerId)`) and
store it. -/
def getCachedSelector {Node : Type} (create : String → LayerId → Node)
    (r : SelectorRegistry Node) (kind : String) (layerId : LayerId) :
    Node × SelectorRegistry Node :=
  match r.entries.find? (fun e => e.1.1 == kind && e.1.2 == layerId) with
  | some e => (e.2, r)
  | none =>
    let node := create kind layerId
    (node, SelectorRegistry.mk (((kind, layerId), node) :: r.entries))

/-- Index list visited by the gradient loop `for(i=end; i>=start; i--)`:
`countdownKeys start n` is `[start+n-1, …, start]`, so the loop's visit order
is `countdownKeys start (end + 1 - start)`. -/
def countdownKeys (start : Nat) : Nat → List Nat
  | 0 => []
  | n + 1 => (start + n) :: countdownKeys start n

/-- Embeds the gradient loop of `getSliderColors` over a resolved index
range: `colorStep = 3/8/(end-start)` and
`colors[i] = startColor.darken(colorStep*(end-i)).hex()`, the `color`
library call abstracted as `darkenHex`. -/
def sliderColorsRange (E : PipelineExternals) (startI endI : Nat) :
    List (Nat × String) :=
  let colorStep : ℚ := 3 / 8 / ((endI : ℚ) - (startI : ℚ))
  (countdownKeys startI (endI + 1 - startI)).map
    (fun i => (i, E.darkenHex (colorStep * ((endI : ℚ) - (i : ℚ)))))

/-- Embeds the combiner of `getSliderColors`: resolve the index range from
the external bounds resolver when the slider value is positive, else from the
layer's offset and preview-vertex count, then run the gradient loop.
(`none` marks the JS fault of an id absent from `offsets`.) -/
def getSliderColorsBody (E : PipelineExternals) (allVertices : List Vertex)
    (sliderValue : ℚ) (layerVertices : List Vertex)
    (offsets : List (LayerId × Nat)) (layerId : LayerId) :
    Option (List (Nat × String)) :=
  if 0 < sliderValue then
    let bounds := E.getSliderBounds allVertices sliderValue
    some (sliderColorsRange E bounds.1 bounds.2)
  else
    match offsets.lookup layerId with
    | none => none
    | some startI =>
      some (sliderColorsRange E startI (startI + layerVertices.length))

/-- Sample raw-stage externals: a serializer that records the numLoops field
and whether a machine is present, and a constant generator. -/
def sampleRawE : RawExternals :=
  RawExternals.mk
    (fun st => Except.ok
      (toString st.shape.numLoops ++ (if st.machine.isSome then "M" else "N")))
    (fun _ => [Vertex.mk 1 2])

/-- Sample raw-stage externals whose serializer always fails, modelling a
snapshot `JSON.stringify` throws on. -/
def failingRawE : RawExternals :=
  RawExternals.mk
    (fun _ => Except.error "circular structure")
    (fun _ => [Vertex.mk 1 1])

/-- Sample cacheable layer that does not use machine settings. -/
def sampleLayerNoMachine : Layer :=
  Layer.mk false true false false "none" 0 0 0 false 1 1 false 0

/-- Sample non-cacheable layer: not dragging, with an active effect. -/
def sampleUncachedLayer : Layer :=
  Layer.mk false false false true "none" 0 0 0 false 1 1 false 0

/-- Empty vertex cache with the source's budget of 500000. -/
def emptyCache : LRUCache := LRUCache.mk [] 500000

/-- Fresh raw-stage memo node (nothing evaluated yet). -/
def sampleMemoNode : MemoNode (Layer × Option Machine) (List Vertex) :=
  MemoNode.mk none none

/-- Sample raw-stage combiner used to exercise the memo node. -/
def sampleCombiner : Layer × Option Machine → List Vertex :=
  fun _ => [Vertex.mk 1 2]

/-- C1: for a layer with `usesMachine = false` the machine input resolved for
the raw stage is null under either machine value, hence the raw-stage cache
key and the entire raw-stage run coincide across arbitrary machine changes,
and re-evaluating the memoized raw-stage node after such a change does not
re-execute it and returns the same output. -/
theorem C1_raw_stage_machine_independent (E : RawExternals) (layer : Layer)
    (m1 m2 : Machine) (cache : LRUCache)
    (f : Layer × Option Machine → List Vertex)
    (n0 : MemoNode (Layer × Option Machine) (List Vertex))
    (h : layer.usesMachine = false) :
    makeGetLayerMachine layer m1 = none ∧
    makeGetLayerMachine layer m2 = none ∧
    getCacheKey E (RawInput.mk layer (makeGetLayerMachine layer m1)) =
      getCacheKey E (RawInput.mk layer (makeGetLayerMachine layer m2)) ∧
    makeGetLayerVerticesRun E layer (makeGetLayerMachine layer m1) cache =
      makeGetLayerVerticesRun E layer (makeGetLayerMachine layer m2) cache ∧
    (MemoNode.evalNode f
        (MemoNode.evalNode f n0 (layer, makeGetLayerMachine layer m1)).2.1
        (layer, makeGetLayerMachine layer m2)).2.2 = false ∧
    (MemoNode.evalNode f
        (MemoNode.evalNode f n0 (layer, makeGetLayerMachine layer m1)).2.1
        (layer, makeGetLayerMachine layer m2)).1 =
      (MemoNode.evalNode f n0 (layer, makeGetLayerMachine layer m1)).1 := by
  have hm : makeGetLayerMachine layer m1 = none := by
    simp [makeGetLayerMachine, h]
  have hm2 : makeGetLayerMachine layer m2 = none := by
    simp [makeGetLayerMachine, h]
  rw [hm, hm2]
  refine ⟨rfl, rfl, rfl, rfl, ?_, ?_⟩ <;>
  · match n0 with
    | MemoNode.mk none o => simp [MemoNode.evalNode]
    | MemoNode.mk (some i) none => simp [MemoNode.evalNode]
    | MemoNode.mk (some i) (some o) =>
      by_cases hi : i = (layer, none)
      · simp [MemoNode.evalNode, hi]
      · simp [MemoNode.evalNode, hi]

/-- Witness for C1 at a concrete cacheable layer, two distinct machines, the
empty cache and a fresh memo node. -/
theorem C1_raw_stage_machine_independent_witness :
    sampleLayerNoMachine.usesMachine = false ∧
    (makeGetLayerMachine sampleLayerNoMachine (Machine.mk 0) = none ∧
     makeGetLayerMachine sampleLayerNoMachine (Machine.mk 1) = none ∧
     getCacheKey sampleRawE (RawInput.mk sampleLayerNoMachine
        (makeGetLayerMachine sampleLayerNoMachine (Machine.mk 0))) =
       getCacheKey sampleRawE (RawInput.mk sampleLayerNoMachine
        (makeGetLayerMachine sampleLayerNoMachine (Machine.mk 1))) ∧
     makeGetLayerVerticesRun sampleRawE sampleLayerNoMachine
        (makeGetLayerMachine sampleLayerNoMachine (Machine.mk 0)) emptyCache =
       makeGetLayerVerticesRun sampleRawE sampleLayerNoMachine
        (makeGetLayerMachine sampleLayerNoMachine (Machine.mk 1)) emptyCache ∧
     (MemoNode.evalNode sampleCombiner
        (MemoNode.evalNode sampleCombiner sampleMemoNode
          (sampleLayerNoMachine,
            makeGetLayerMachine sampleLayerNoMachine (Machine.mk 0))).2.1
        (sampleLayerNoMachine,
          makeGetLayerMachine sampleLayerNoMachine (Machine.mk 1))).2.2
        = false ∧
     (MemoNode.evalNode sampleCombiner
        (MemoNode.evalNode sampleCombiner sampleMemoNode
          (sampleLayerNoMachine,
            makeGetLayerMachine sampleLayerNoMachine (Machine.mk 0))).2.1
        (sampleLayerNoMachine,
          makeGetLayerMachine sampleLayerNoMachine (Machine.mk 1))).1 =
       (MemoNode.evalNode sampleCombiner sampleMemoNode
          (sampleLayerNoMachine,
            makeGetLayerMachine sampleLayerNoMachine (Machine.mk 0))).1) :=
  ⟨rfl, C1_raw_stage_machine_independent sampleRawE sampleLayerNoMachine
    (Machine.mk 0) (Machine.mk 1) emptyCache sampleCombiner sampleMemoNode rfl⟩

/-- C5: for a layer with `shouldCache = false` the raw stage returns the
empty vertex list when the layer is not dragging and has an active effect,
and otherwise invokes the generator directly; in both cases the vertex cache
is neither consulted nor changed. -/
theorem C5_uncached_raw_stage (E : RawExternals) (layer : Layer)
    (lm : Option Machine) (cache : LRUCache)
    (h : layer.shouldCache = false) :
    (layer.dragging = false → layer.effect = true →
      makeGetLayerVerticesRun E layer lm cache =
        RawOut.mk (Except.ok []) cache false false) ∧
    (layer.dragging = true ∨ layer.effect = false →
      makeGetLayerVerticesRun E layer lm cache =
        RawOut.mk (Except.ok (E.getVertices (RawInput.mk layer lm))) cache
          false true) := by
  constructor
  · intro hd he
    simp [makeGetLayerVerticesRun, h, hd, he]
  · intro hor
    rcases hor with hd | he
    · simp [makeGetLayerVerticesRun, h, hd]
    · cases hd : layer.dragging <;>
        simp [makeGetLayerVerticesRun, h, hd, he]

/-- Witness for C5 at a concrete non-cacheable layer (not dragging, with an
active effect): the raw stage short-circuits to the empty list, leaving the
cache untouched and unconsulted. -/
theorem C5_uncached_raw_stage_witness :
    makeGetLayerVerticesRun sampleRawE sampleUncachedLayer none emptyCache =
      RawOut.mk (Except.ok []) emptyCache false false :=
  (C5_uncached_raw_stage sampleRawE sampleUncachedLayer none emptyCache
    rfl).1 rfl rfl

/-- C6: two registry lookups with the same kind and layer id return the same
node instance and the second lookup leaves the registry unchanged, so at most
one computation node ever exists per `(kind, layerId)` pair. -/
theorem C6_registry_single_node {Node : Type}
    (create : String → LayerId → Node) (r : SelectorRegistry Node)
    (kind : String) (layerId : LayerId) :
    (getCachedSelector create
        (getCachedSelector create r kind layerId).2 kind layerId).1 =
      (getCachedSelector create r kind layerId).1 ∧
    (getCachedSelector create
        (getCachedSelector create r kind layerId).2 kind layerId).2 =
      (getCachedSelector create r kind layerId).2 := by
  cases hf : r.entries.find? (fun e => e.1.1 == kind && e.1.2 == layerId) with
  | some e => constructor <;> simp [getCachedSelector, hf]
  | none =>
    have hcons : List.find? (fun e => e.1.1 == kind && e.1.2 == layerId)
        (((kind, layerId), create kind layerId) :: r.entries) =
        some ((kind, layerId), create kind layerId) :=
      List.find?_cons_of_pos _ (by simp)
    constructor <;> simp [getCachedSelector, hf, hcons]

/-- C9 counterexample: with a serializer that fails on the snapshot, the raw
stage of a cacheable layer returns the propagated error — the generator does
not run and the generator's result is not returned.  This refutes the claim
that the raw stage falls back to uncached generation. -/
theorem C9_counterexample :
    (makeGetLayerVerticesRun failingRawE sampleLayerNoMachine none
        emptyCache).result = Except.error "circular structure" ∧
    (makeGetLayerVerticesRun failingRawE sampleLayerNoMachine none
        emptyCache).generatorCalled = false ∧
    (makeGetLayerVerticesRun failingRawE sampleLayerNoMachine none
        emptyCache).result ≠
      Except.ok (failingRawE.getVertices
        (RawInput.mk sampleLayerNoMachine none)) := by
  refine ⟨rfl, rfl, ?_⟩
  intro hcon
  simp [makeGetLayerVerticesRun, failingRawE, getCacheKey,
    sampleLayerNoMachine] at hcon

/-- C9 amended: when cache-key serialization fails for a cacheable layer, the
raw stage propagates the failure to its caller; the cache is not consulted,
the generator is not invoked, and no fallback result is produced. -/
theorem C9_amended_serialization_error_propagates (E : RawExternals)
    (layer : Layer) (lm : Option Machine) (cache : LRUCache) (e : String)
    (hc : layer.shouldCache = true)
    (hs : E.stringify (RawInput.mk layer lm) = Except.error e) :
    makeGetLayerVerticesRun E layer lm cache =
      RawOut.mk (Except.error e) cache false false := by
  simp [makeGetLayerVerticesRun, getCacheKey, hc, hs]

/-- Witness for the amended C9 at the concrete failing serializer. -/
theorem C9_amended_serialization_error_propagates_witness :
    makeGetLayerVerticesRun failingRawE sampleLayerNoMachine none emptyCache =
      RawOut.mk (Except.error "circular structure") emptyCache false false :=
  C9_amended_serialization_error_propagates failingRawE sampleLayerNoMachine
    none emptyCache "circular structure" rfl rfl

/-- Sample pipeline externals: identity-like transform/polish, a nearest
perimeter lookup returning the queried point, and an empty perimeter trace. -/
def samplePipeE : PipelineExternals :=
  PipelineExternals.mk
    (fun vs _ _ => vs)
    (fun vs _ _ _ => vs)
    (fun _ ov => match ov with | some v => v | none => Vertex.mk 0 0)
    (fun _ _ _ => [])
    (fun v _ => v)
    (fun v dx dy => Vertex.mk (v.x + dx) (v.y + dy))
    (fun _ _ => (0, 0))
    (fun _ => "#ffff00")

/-- Sample layer stitched along the perimeter. -/
def sampleLayerA : Layer :=
  Layer.mk false true false false "along perimeter" 0 0 0 false 1 1 false 0

/-- Sample layer with the default connection method. -/
def sampleLayerB : Layer :=
  Layer.mk false true false false "none" 0 0 0 false 1 1 false 0

/-- Sample two-layer state whose first layer connects along the perimeter. -/
def sampleState : AppState :=
  AppState.mk [(0, sampleLayerA), (1, sampleLayerB)] [0, 1] (Machine.mk 0) 0

/-- Sample two-layer state whose first layer uses the default connection. -/
def sampleStateDirect : AppState :=
  AppState.mk [(0, sampleLayerB), (1, sampleLayerB)] [0, 1] (Machine.mk 0) 0

/-- Sample transformed-stage outputs: a two-point segment for layer 0 and a
single point for layer 1. -/
def sampleTransformed : LayerId → List Vertex :=
  fun id => if id = 0 then [Vertex.mk 0 0, Vertex.mk 1 0] else [Vertex.mk 5 5]

/-- C2: for consecutive visible layers A then B (B present, not dragging,
with non-empty computed vertices) and A connecting along the perimeter, A's
computed-stage path before the polish step is A's transformed vertices
followed, in order, by the nearest perimeter point of A's last vertex, the
perimeter-trace bridge points, the nearest perimeter point of B's first
computed vertex, and B's first computed vertex. -/
theorem C2_perimeter_stitch (E : PipelineExternals) (s : AppState)
    (next : LayerId → Option LayerId) (transformed : LayerId → List Vertex)
    (fuel : Nat) (layerId nid : LayerId) (nextLayer layer : Layer)
    (nv0 lastV : Vertex) (nvrest : List Vertex)
    (hguard : s.layerIndex layerId < s.numVisibleLayers - 1)
    (hnext : next layerId = some nid)
    (hnl : s.layerById nid = some nextLayer)
    (hdrag : nextLayer.dragging = false)
    (hrec : computedVerticesFuel E s next transformed fuel nid =
      some (nv0 :: nvrest))
    (hlayer : s.layerById layerId = some layer)
    (hconn : layer.connectionMethod = "along perimeter")
    (hlast : (transformed layerId).getLast? = some lastV) :
    computedPre E s next transformed fuel layerId =
      some (transformed layerId ++
        (E.nearestPerimeterVertex s.machine (some lastV) ::
          (E.tracePerimeter s.machine
              (E.nearestPerimeterVertex s.machine (some lastV))
              (E.nearestPerimeterVertex s.machine (some nv0)) ++
            [E.nearestPerimeterVertex s.machine (some nv0), nv0]))) := by
  simp [computedPre, computedPreBody, hguard, hnext, hnl, hdrag, hrec, hlayer,
    hconn, hlast]

/-- Witness for C2 on a concrete two-layer state: the square-side segment of
layer 0 is bridged to the point of layer 1 through the perimeter points. -/
theorem C2_perimeter_stitch_witness :
    computedPre samplePipeE sampleState (specNextLayerId sampleState)
        sampleTransformed 1 0 =
      some [Vertex.mk 0 0, Vertex.mk 1 0, Vertex.mk 1 0,
        Vertex.mk 5 5, Vertex.mk 5 5] :=
  C2_perimeter_stitch samplePipeE sampleState (specNextLayerId sampleState)
    sampleTransformed 1 0 1 sampleLayerB sampleLayerA (Vertex.mk 5 5)
    (Vertex.mk 1 0) [] (by decide) rfl rfl rfl rfl rfl rfl rfl

/-- C3: for consecutive visible layers A then B with A not connecting along
the perimeter, the pre-polish computed path of A is its transformed vertices
with exactly B's first computed vertex appended; and when B does not exist
(no next id, or the id is absent from the layer mapping), is dragging, or has
empty computed vertices, nothing is appended. -/
theorem C3_default_stitch (E : PipelineExternals) (s : AppState)
    (next : LayerId → Option LayerId) (transformed : LayerId → List Vertex)
    (fuel : Nat) (layerId : LayerId) :
    (∀ nid nextLayer layer nv0 nvrest,
      s.layerIndex layerId < s.numVisibleLayers - 1 →
      next layerId = some nid →
      s.layerById nid = some nextLayer →
      nextLayer.dragging = false →
      computedVerticesFuel E s next transformed fuel nid =
        some (nv0 :: nvrest) →
      s.layerById layerId = some layer →
      layer.connectionMethod ≠ "along perimeter" →
      computedPre E s next transformed fuel layerId =
        some (transformed layerId ++ [nv0])) ∧
    (next layerId = none →
      computedPre E s next transformed fuel layerId =
        some (transformed layerId)) ∧
    (∀ nid, next layerId = some nid → s.layerById nid = none →
      computedPre E s next transformed fuel layerId =
        some (transformed layerId)) ∧
    (∀ nid nextLayer, next layerId = some nid →
      s.layerById nid = some nextLayer → nextLayer.dragging = true →
      computedPre E s next transformed fuel layerId =
        some (transformed layerId)) ∧
    (∀ nid nextLayer, next layerId = some nid →
      s.layerById nid = some nextLayer → nextLayer.dragging = false →
      computedVerticesFuel E s next transformed fuel nid = some [] →
      computedPre E s next transformed fuel layerId =
        some (transformed layerId)) := by
  refine ⟨?_, ?_, ?_, ?_, ?_⟩
  · intro nid nextLayer layer nv0 nvrest hguard hnext hnl hdrag hrec hlayer
      hconn
    simp [computedPre, computedPreBody, hguard, hnext, hnl, hdrag, hrec,
      hlayer, hconn]
  · intro hnext
    by_cases hguard : s.layerIndex layerId < s.numVisibleLayers - 1 <;>
      simp [computedPre, computedPreBody, hguard, hnext]
  · intro nid hnext hnl
    by_cases hguard : s.layerIndex layerId < s.numVisibleLayers - 1 <;>
      simp [computedPre, computedPreBody, hguard, hnext, hnl]
  · intro nid nextLayer hnext hnl hdrag
    by_cases hguard : s.layerIndex layerId < s.numVisibleLayers - 1 <;>
      simp [computedPre, computedPreBody, hguard, hnext, hnl, hdrag]
  · intro nid nextLayer hnext hnl hdrag hrec
    by_cases hguard : s.layerIndex layerId < s.numVisibleLayers - 1 <;>
      simp [computedPre, computedPreBody, hguard, hnext, hnl, hdrag, hrec]

/-- Witness for C3 on a concrete two-layer state with the default connection
method: exactly the next layer's first computed vertex is appended. -/
theorem C3_default_stitch_witness :
    computedPre samplePipeE sampleStateDirect
        (specNextLayerId sampleStateDirect) sampleTransformed 1 0 =
      some [Vertex.mk 0 0, Vertex.mk 1 0, Vertex.mk 5 5] :=
  (C3_default_stitch samplePipeE sampleStateDirect
      (specNextLayerId sampleStateDirect) sampleTransformed 1 0).1
    1 sampleLayerB sampleLayerB (Vertex.mk 5 5) []
    (by decide) rfl rfl rfl rfl rfl (by decide)

/-- The per-vertex preview mapping of `makeGetPreviewVertices`: un-offset by
the layer offset, rotate by the layer rotation, then apply the Konva
transformer delta. -/
def konvaMappedVertex (E : PipelineExternals) (layer : Layer)
    (vertex : Vertex) : Vertex :=
  let konvaScale : ℚ := if layer.autosize then 5 else 1
  let konvaDeltaX := (konvaScale - 1) / 2 * layer.startingWidth
  let konvaDeltaY := (konvaScale - 1) / 2 * layer.startingHeight
  E.offsetPoint
    (E.rotatePoint (E.offsetPoint vertex (-layer.offsetX) (-layer.offsetY))
      layer.rotation)
    konvaDeltaX (-konvaDeltaY)

/-- C10: the preview vertices of a dragging layer are its transformed-stage
output (hence free of perimeter-stitch and polish additions), those of a
non-dragging layer its computed-stage output, each vertex mapped by
un-offsetting, rotating and applying the Konva delta. -/
theorem C10_preview_source (E : PipelineExternals) (s : AppState)
    (next : LayerId → Option LayerId) (transformed : LayerId → List Vertex)
    (fuel : Nat) (layerId : LayerId) (layer : Layer) (cv : List Vertex)
    (hl : s.layerById layerId = some layer)
    (hcv : computedVerticesFuel E s next transformed fuel layerId = some cv) :
    (layer.dragging = true →
      previewVerticesFuel E s next transformed fuel layerId =
        some ((transformed layerId).map (konvaMappedVertex E layer))) ∧
    (layer.dragging = false →
      previewVerticesFuel E s next transformed fuel layerId =
        some (cv.map (konvaMappedVertex E layer))) := by
  constructor <;> intro hd <;>
    simp [previewVerticesFuel, makeGetPreviewVerticesBody, konvaMappedVertex,
      hl, hcv, hd]

/-- Witness for C10 on a concrete non-dragging layer: the preview is the
computed-stage output mapped through the Konva adjustment. -/
theorem C10_preview_source_witness :
    previewVerticesFuel samplePipeE sampleStateDirect
        (specNextLayerId sampleStateDirect) sampleTransformed 2 0 =
      some ([Vertex.mk 0 0, Vertex.mk 1 0, Vertex.mk 5 5].map
        (konvaMappedVertex samplePipeE sampleLayerB)) :=
  (C10_preview_source samplePipeE sampleStateDirect
      (specNextLayerId sampleStateDirect) sampleTransformed 2 0 sampleLayerB
      [Vertex.mk 0 0, Vertex.mk 1 0, Vertex.mk 5 5] rfl rfl).2 rfl

/-- Length of the gradient loop's visit list. -/
theorem countdownKeys_length (start n : Nat) :
    (countdownKeys start n).length = n := by
  induction n with
  | zero => rfl
  | succ m ih => simp [countdownKeys, ih]

/-- Membership in the gradient loop's visit list. -/
theorem countdownKeys_mem (start n i : Nat) :
    i ∈ countdownKeys start n ↔ start ≤ i ∧ i < start + n := by
  induction n with
  | zero => simp [countdownKeys]
  | succ m ih =>
    simp [countdownKeys, ih]
    omega

/-- The gradient loop visits each index once. -/
theorem countdownKeys_nodup (start n : Nat) :
    (countdownKeys start n).Nodup := by
  induction n with
  | zero => exact List.nodup_nil
  | succ m ih =>
    simp [countdownKeys, List.nodup_cons, ih, countdownKeys_mem]

/-- Projecting the first components of index/value pairs built over a list
of indices recovers the index list. -/
theorem map_fst_pair {β : Type} (g : Nat → β) (l : List Nat) :
    (l.map (fun i => (i, g i))).map Prod.fst = l := by
  induction l with
  | nil => rfl
  | cons a t ih => simp [ih]

/-- The keys of a gradient range are exactly the loop's visit list. -/
theorem sliderColorsRange_keys (E : PipelineExternals) (startI endI : Nat) :
    (sliderColorsRange E startI endI).map Prod.fst =
      countdownKeys startI (endI + 1 - startI) := by
  simp only [sliderColorsRange]
  exact map_fst_pair _ _

/-- Flattened path of ten points, as in the spec's gradient scenario. -/
def tenVertices : List Vertex := List.replicate 10 (Vertex.mk 0 0)

/-- Preview vertices of a layer occupying four indices. -/
def fourVertices : List Vertex := List.replicate 4 (Vertex.mk 0 0)

/-- C8 counterexample: slider value 0 and a layer at offset 2 with 4
vertices — the range the claim calls `[2,6)` — produce the five keys
6,5,4,3,2 (loop order), not the four keys 2..5: the gradient loop runs from
`end` down to `start` inclusive of both. -/
theorem C8_counterexample :
    (getSliderColorsBody samplePipeE tenVertices 0 fourVertices
        [(0, 2)] 0).map (fun colors => colors.map Prod.fst) =
      some [6, 5, 4, 3, 2] ∧
    [6, 5, 4, 3, 2].length ≠ 4 ∧ (6 : Nat) ∈ [6, 5, 4, 3, 2] := by
  refine ⟨by decide, by decide, by decide⟩

/-- C8 amended: for a slider value ≤ 0 and a layer whose offset is `start`
and whose preview-vertex count is `end - start`, the gradient map has exactly
`end - start + 1` keys, namely the indices `start` through `end` inclusive
(so a layer occupying `[2,6)` gets the 5 keys 2,3,4,5,6). -/
theorem C8_amended_gradient_keys (E : PipelineExternals)
    (allVertices layerVertices : List Vertex) (sliderValue : ℚ)
    (offsets : List (LayerId × Nat)) (layerId : LayerId) (startI : Nat)
    (hs : sliderValue ≤ 0) (ho : offsets.lookup layerId = some startI) :
    ∃ colors,
      getSliderColorsBody E allVertices sliderValue layerVertices offsets
          layerId = some colors ∧
      (colors.map Prod.fst).length = layerVertices.length + 1 ∧
      (colors.map Prod.fst).Nodup ∧
      ∀ i, i ∈ colors.map Prod.fst ↔
        (startI ≤ i ∧ i ≤ startI + layerVertices.length) := by
  have hnot : ¬ (0 < sliderValue) := not_lt.mpr hs
  refine ⟨sliderColorsRange E startI (startI + layerVertices.length),
    by simp [getSliderColorsBody, hnot, ho], ?_, ?_, ?_⟩
  all_goals
    rw [show (sliderColorsRange E startI
        (startI + layerVertices.length)).map Prod.fst =
          countdownKeys startI (layerVertices.length + 1) by
      rw [sliderColorsRange_keys]
      congr 1
      omega]
  · exact countdownKeys_length _ _
  · exact countdownKeys_nodup _ _
  · intro i
    rw [countdownKeys_mem]
    omega

/-- Witness for the amended C8 at the spec's concrete scenario (offset 2,
four layer vertices, slider value 0). -/
theorem C8_amended_gradient_keys_witness :
    ∃ colors,
      getSliderColorsBody samplePipeE tenVertices 0 fourVertices
          [(0, 2)] 0 = some colors ∧
      (colors.map Prod.fst).length = fourVertices.length + 1 ∧
      (colors.map Prod.fst).Nodup ∧
      ∀ i, i ∈ colors.map Prod.fst ↔
        (2 ≤ i ∧ i ≤ 2 + fourVertices.length) :=
  C8_amended_gradient_keys samplePipeE tenVertices fourVertices 0
    [(0, 2)] 0 2 (by norm_num) rfl

/-- Running offset accumulated by `getVertexOffsets` over the first `i`
visible layers. -/
def offsetAt (computed : LayerId → List Vertex) (ids : List LayerId)
    (i : Nat) : Nat :=
  ((ids.take i).map (fun id => (computed id).length + 1)).sum

/-- The running offset advances by the layer's vertex count plus one. -/
theorem offsetAt_succ (computed : LayerId → List Vertex) :
    ∀ (ids : List LayerId) (i : Nat) (h : i < ids.length),
      offsetAt computed ids (i + 1) =
        offsetAt computed ids i +
          (computed (ids.get ⟨i, h⟩)).length + 1 := by
  intro ids
  induction ids with
  | nil =>
    intro i h
    simp at h
  | cons hd tl ih =>
    intro i h
    cases i with
    | zero =>
      rw [show (hd :: tl).get ⟨0, h⟩ = hd from rfl]
      simp only [offsetAt, List.take_succ_cons, List.take_zero,
        List.map_cons, List.map_nil, List.sum_cons, List.sum_nil]
      omega
    | succ j =>
      have hj : j < tl.length := Nat.lt_of_succ_lt_succ h
      have hih := ih j hj
      rw [show (hd :: tl).get ⟨j + 1, h⟩ = tl.get ⟨j, hj⟩ from rfl]
      simp only [offsetAt, List.take_succ_cons, List.map_cons,
        List.sum_cons] at hih ⊢
      omega

/-- Looking a visible layer up in the accumulated offsets list yields the
base accumulator plus the running offset of its position (for a
duplicate-free visible order). -/
theorem offsetsGo_lookup (computed : LayerId → List Vertex) :
    ∀ (ids : List LayerId), ids.Nodup → ∀ (acc i : Nat) (h : i < ids.length),
      (offsetsGo computed acc ids).lookup (ids.get ⟨i, h⟩) =
        some (acc + offsetAt computed ids i) := by
  intro ids
  induction ids with
  | nil =>
    intro _ _ i h
    simp at h
  | cons hd tl ih =>
    intro hnd acc i h
    cases i with
    | zero =>
      rw [show (hd :: tl).get ⟨0, h⟩ = hd from rfl]
      simp [offsetsGo, List.lookup, offsetAt]
    | succ j =>
      have hj : j < tl.length := Nat.lt_of_succ_lt_succ h
      have hbeq : (tl.get ⟨j, hj⟩ == hd) = false := by
        rw [beq_eq_false_iff_ne]
        intro heq
        exact (List.nodup_cons.mp hnd).1 (heq ▸ List.get_mem tl j hj)
      rw [show (hd :: tl).get ⟨j + 1, h⟩ = tl.get ⟨j, hj⟩ from rfl]
      simp only [offsetsGo, List.lookup, hbeq]
      rw [ih (List.nodup_cons.mp hnd).2 (acc + (computed hd).length + 1) j hj]
      simp only [offsetAt, List.take_succ_cons, List.map_cons, List.sum_cons]
      congr 1
      omega

/-- C4: within a duplicate-free visible order, the offsets mapping assigns
offset 0 to the first visible layer, and for every pair of consecutive
visible layers the next offset equals the current offset plus the current
layer's computed vertex count plus one. -/
theorem C4_vertex_offsets (computed : LayerId → List Vertex)
    (ids : List LayerId) (hnd : ids.Nodup) :
    (∀ id rest, ids = id :: rest →
      (getVertexOffsets computed ids).lookup id = some 0) ∧
    (∀ (i : Nat) (h : i + 1 < ids.length),
      ∃ o,
        (getVertexOffsets computed ids).lookup
            (ids.get ⟨i, Nat.lt_of_succ_lt h⟩) = some o ∧
        (getVertexOffsets computed ids).lookup (ids.get ⟨i + 1, h⟩) =
          some (o + (computed (ids.get ⟨i, Nat.lt_of_succ_lt h⟩)).length
            + 1)) := by
  constructor
  · intro id rest hids
    subst hids
    simp [getVertexOffsets, offsetsGo, List.lookup]
  · intro i h
    refine ⟨offsetAt computed ids i, ?_, ?_⟩
    · have h1 := offsetsGo_lookup computed ids hnd 0 i (Nat.lt_of_succ_lt h)
      simpa [getVertexOffsets] using h1
    · have h2 := offsetsGo_lookup computed ids hnd 0 (i + 1) h
      rw [getVertexOffsets, h2,
        offsetAt_succ computed ids i (Nat.lt_of_succ_lt h)]
      congr 1
      omega

/-- Witness for C4 on the two-layer order: the first layer sits at offset 0
and the second at the first's offset plus its vertex count plus one. -/
theorem C4_vertex_offsets_witness :
    (getVertexOffsets sampleTransformed [0, 1]).lookup 0 = some 0 ∧
    ∃ o,
      (getVertexOffsets sampleTransformed [0, 1]).lookup
          (([0, 1] : List LayerId).get ⟨0, by decide⟩) = some o ∧
      (getVertexOffsets sampleTransformed [0, 1]).lookup
          (([0, 1] : List LayerId).get ⟨1, by decide⟩) =
        some (o + (sampleTransformed
          (([0, 1] : List LayerId).get ⟨0, by decide⟩)).length + 1) :=
  ⟨(C4_vertex_offsets sampleTransformed [0, 1] (by decide)).1 0 [1] rfl,
   (C4_vertex_offsets sampleTransformed [0, 1] (by decide)).2 0 (by decide)⟩

/-- Fuel sufficiency for the computed-stage recursion: when every resolved
next layer is a visible layer lying strictly later in the visible order and
the layer mapping covers the visible order, fuel
`numVisibleLayers - layerIndex` evaluates any visible layer successfully. -/
theorem computedFuel_total (E : PipelineExternals) (s : AppState)
    (next : LayerId → Option LayerId) (transformed : LayerId → List Vertex)
    (hlayers : ∀ id, id ∈ s.visibleLayerIds → (s.layerById id).isSome = true)
    (hnext : ∀ id nid, next id = some nid →
      nid ∈ s.visibleLayerIds ∧ s.layerIndex id < s.layerIndex nid) :
    ∀ (fuel : Nat) (id : LayerId), id ∈ s.visibleLayerIds →
      s.numVisibleLayers - s.layerIndex id ≤ fuel →
      (computedVerticesFuel E s next transformed fuel id).isSome = true := by
  intro fuel
  induction fuel with
  | zero =>
    intro id hid hfuel
    exfalso
    have hlt : s.layerIndex id < s.numVisibleLayers :=
      List.indexOf_lt_length.mpr hid
    omega
  | succ f ih =>
    intro id hid hfuel
    have hpre : (computedPreBody E s next transformed
        (computedVerticesFuel E s next transformed f) id).isSome = true := by
      by_cases hguard : s.layerIndex id < s.numVisibleLayers - 1
      · cases hn : next id with
        | none => simp [computedPreBody, hguard, hn]
        | some nid =>
          obtain ⟨hmem, hlt2⟩ := hnext id nid hn
          cases hnl : s.layerById nid with
          | none => simp [computedPreBody, hguard, hn, hnl]
          | some nextLayer =>
            cases hdrag : nextLayer.dragging with
            | true => simp [computedPreBody, hguard, hn, hnl, hdrag]
            | false =>
              have hrec : (computedVerticesFuel E s next transformed f
                  nid).isSome = true :=
                ih nid hmem (by omega)
              obtain ⟨nv, hnv⟩ := Option.isSome_iff_exists.mp hrec
              obtain ⟨layer, hlayer⟩ :=
                Option.isSome_iff_exists.mp (hlayers id hid)
              cases hnv0 : nv.head? with
              | none =>
                simp [computedPreBody, hguard, hn, hnl, hdrag, hnv, hnv0]
              | some endV =>
                by_cases hconn : layer.connectionMethod = "along perimeter" <;>
                  simp [computedPreBody, hguard, hn, hnl, hdrag, hnv, hnv0,
                    hlayer, hconn]
      · simp [computedPreBody, hguard]
    obtain ⟨vs, hvs⟩ := Option.isSome_iff_exists.mp hpre
    simp [computedVerticesFuel, hvs]

/-- C7: for a visible order in which every layer's resolved next layer lies
strictly later (an acyclic forward chain) and whose layers all exist, the
recursive computed-stage evaluation of any visible layer terminates within
recursion depth bounded by the number of visible layers. -/
theorem C7_recursion_terminates (E : PipelineExternals) (s : AppState)
    (next : LayerId → Option LayerId) (transformed : LayerId → List Vertex)
    (hlayers : ∀ id, id ∈ s.visibleLayerIds → (s.layerById id).isSome = true)
    (hnext : ∀ id nid, next id = some nid →
      nid ∈ s.visibleLayerIds ∧ s.layerIndex id < s.layerIndex nid)
    (id : LayerId) (hid : id ∈ s.visibleLayerIds) :
    (computedVerticesFuel E s next transformed s.numVisibleLayers
        id).isSome = true :=
  computedFuel_total E s next transformed hlayers hnext s.numVisibleLayers
    id hid (Nat.sub_le _ _)

/-- Forward next-layer map on the sample two-layer state. -/
def sampleNext : LayerId → Option LayerId :=
  fun id => if id = 0 then some 1 else none

/-- Witness for C7 on the concrete two-layer state: fuel equal to the number
of visible layers evaluates the first layer successfully. -/
theorem C7_recursion_terminates_witness :
    (computedVerticesFuel samplePipeE sampleState sampleNext
        sampleTransformed sampleState.numVisibleLayers 0).isSome = true :=
  C7_recursion_terminates samplePipeE sampleState sampleNext
    sampleTransformed (by decide)
    (by
      intro id nid hsome
      by_cases h0 : id = 0
      · subst h0
        rw [show sampleNext 0 = some 1 from rfl, Option.some.injEq] at hsome
        subst hsome
        exact ⟨by decide, by decide⟩
      · simp [sampleNext, h0] at hsome)
    0 (by decide)
